import Mathlib

/-!
Verification of the real-time connection and event-notification subsystem of
the KejiaFestival backend (socket.controller.js, socket.service.js,
middlewares/socket.js, index.js), as a shallow embedding in Lean 4.

Modelling conventions:
* JavaScript Map objects are assoc lists with Map semantics (set replaces the
  existing entry, delete removes it); string ids stay Lean Strings.
* Thrown JS exceptions become Except.error; try/catch blocks become a recover
  that turns the error into the catch-branch result.
* socket.emit to a single socket appends to that socket record's received
  list; io.to(room).emit appends to a room-targeted outbox; io.emit appends to
  a broadcast box.  logger/console calls have no observable effect and are not
  modelled; Date.now timestamps in payloads are likewise dropped.
* The rate limiter key, written in JS as the string userId + underscore +
  minute bucket, is modelled as the pair (userId, bucket); since the decimal
  digits of the bucket contain no underscore this string encoding is injective,
  so the pair is an exact model of the key space.
-/

/-- Events emitted by the server, one constructor per emit site in the source,
carrying the payload fields the specification talks about. -/
inductive SEvent where
  | sessionReplaced
  | connectedAck (userId userType : String)
  | errorEv (message : String)
  | roomJoined (room : String)
  | roomLeft (room : String)
  | newNotificationOrderUpdate (message orderId status : String)
  | orderReadyEv (orderId itemName vendorId message : String)
  | newNotificationGeneric (message ty : String) (orderId : Option String)
  | trackingOrders (orderIds : List String)
  | vendorMessage (vendorId message : String) (orderId : Option String)
  | messageSent (userId message : String)
  | adminAnnouncement (message ty adminId : String)
  | newOrderNotification (orderId customerId customerName : String)
  | dashboardUpdate (orderId customerId customerName : String)
  | newTransaction (transactionId userId vendorId : String)
  | systemAnnouncement (message ty : String)
  | balanceUpdated (userId : String)
  | forceDisconnect (reason : String)
deriving DecidableEq, Repr

/-- State of one transport socket: identity assigned at connection time,
its room memberships, and the events emitted directly to it. -/
structure SocketSt where
  sid : String
  connected : Bool
  userId : Option String
  userType : Option String
  rooms : List String
  received : List SEvent
deriving DecidableEq, Repr

/-- State owned by the SocketController: the connectedUsers Map
(userId to socket id), the set of sockets of the io server, and the
room-targeted and broadcast emissions performed so far. -/
structure ConnState where
  connectedUsers : List (String × String)
  sockets : List SocketSt
  outbox : List (String × SEvent)
  broadcastBox : List SEvent
deriving DecidableEq, Repr

/-- Map.get on an assoc list. -/
def mapGet (m : List (String × String)) (k : String) : Option String :=
  (m.find? (fun p => p.1 == k)).map Prod.snd

/-- Map.set on an assoc list: replace the entry if the key is present,
append otherwise. -/
def mapSet (m : List (String × String)) (k v : String) : List (String × String) :=
  if (m.find? (fun p => p.1 == k)).isSome then
    m.map (fun p => if p.1 == k then (k, v) else p)
  else
    m ++ [(k, v)]

/-- Map.delete on an assoc list. -/
def mapDelete (m : List (String × String)) (k : String) : List (String × String) :=
  m.filter (fun p => !(p.1 == k))

/-- Update the socket with the given id (if present) by f. -/
def updSock (st : ConnState) (sid : String) (f : SocketSt → SocketSt) : ConnState :=
  { st with sockets := st.sockets.map (fun s => if s.sid == sid then f s else s) }

/-- socket.emit(event, payload) to a single socket. -/
def emitToSock (st : ConnState) (sid : String) (ev : SEvent) : ConnState :=
  updSock st sid (fun s => { s with received := s.received ++ [ev] })

/-- socket.join(room): room membership is a set, so joining is idempotent. -/
def joinRoom (st : ConnState) (sid : String) (room : String) : ConnState :=
  updSock st sid (fun s =>
    { s with rooms := if s.rooms.contains room then s.rooms else s.rooms ++ [room] })

/-- socket.leave(room). -/
def leaveRoom (st : ConnState) (sid : String) (room : String) : ConnState :=
  updSock st sid (fun s => { s with rooms := s.rooms.filter (fun r => !(r == room)) })

/-- io.to(room).emit(event, payload). -/
def emitToRoom (st : ConnState) (room : String) (ev : SEvent) : ConnState :=
  { st with outbox := st.outbox ++ [(room, ev)] }

/-- io.emit(event, payload): broadcast to every connected session. -/
def broadcastAll (st : ConnState) (ev : SEvent) : ConnState :=
  { st with broadcastBox := st.broadcastBox ++ [ev] }

/-- handleDisconnection (socket.controller.js:366-369):
this.connectedUsers.delete(socket.userId). -/
def handleDisconnection (st : ConnState) (sock : SocketSt) : ConnState :=
  match sock.userId with
  | some u => { st with connectedUsers := mapDelete st.connectedUsers u }
  | none => st

/-- socket.disconnect(true): the socket stops being connected and, for a socket
that completed handleConnection (its userId was assigned there, at the same
point where the disconnect listener is registered), the disconnect listener
runs handleDisconnection synchronously. -/
def disconnectSock (st : ConnState) (sid : String) : ConnState :=
  match st.sockets.find? (fun s => s.sid == sid) with
  | none => st
  | some s =>
      let st1 := updSock st sid (fun x => { x with connected := false })
      handleDisconnection st1 s

/-- Error value carried by a rejected rate-limit check
(middlewares/socket.js:106-111): code RATE_LIMIT, the configured limit and the
next reset boundary. -/
structure RLError where
  code : String
  limit : Nat
  resetTime : Nat
deriving DecidableEq, Repr

/-- State captured by the socketRateLimit closure: the userEventCounts Map,
keyed by (userId, minute bucket) modelling the JS string key. -/
structure RLState where
  counts : List ((String × Nat) × Nat)
deriving DecidableEq, Repr

/-- Map.get on the rate-limit counter map. -/
def rlGet (m : List ((String × Nat) × Nat)) (k : String × Nat) : Option Nat :=
  (m.find? (fun p => p.1 == k)).map Prod.snd

/-- Map.set on the rate-limit counter map. -/
def rlSet (m : List ((String × Nat) × Nat)) (k : String × Nat) (v : Nat) :
    List ((String × Nat) × Nat) :=
  if (m.find? (fun p => p.1 == k)).isSome then
    m.map (fun p => if p.1 == k then (k, v) else p)
  else
    m ++ [(k, v)]

/-- socketRateLimit middleware body (middlewares/socket.js:93-117): for the
user of the socket (none means next() with no check), compute the per-minute
bucket key, reject with a RATE_LIMIT error when the stored count has reached
eventsPerMinute, otherwise increment the count and pass. -/
def rateLimitCheck (eventsPerMinute : Nat) (st : RLState) (userId : Option String)
    (now : Nat) : RLState × Option RLError :=
  match userId with
  | none => (st, none)
  | some uid =>
      let userKey : String × Nat := (uid, now / 60000)
      let currentCount := (rlGet st.counts userKey).getD 0
      if currentCount ≥ eventsPerMinute then
        (st, some { code := "RATE_LIMIT", limit := eventsPerMinute,
                    resetTime := ((now + 60000 - 1) / 60000) * 60000 })
      else
        ({ counts := rlSet st.counts userKey (currentCount + 1) }, none)

/-- Fold a sequence of (userId, now) middleware invocations from the empty
counter map, keeping only the evolving counter state. -/
def runChecks (eventsPerMinute : Nat) (calls : List (Option String × Nat)) : RLState :=
  calls.foldl (fun st c => (rateLimitCheck eventsPerMinute st c.1 c.2).1) ⟨[]⟩

/-- User record returned by userService.getUserById, with the fields the
socket layer reads: id, type, accountType, status. -/
structure UserRec where
  uid : String
  utype : Option String
  accountType : Option String
  status : Option String
deriving DecidableEq, Repr

/-- Handshake auth object supplied by the client:
socket.handshake.auth = { token, userId }. -/
structure Handshake where
  token : Option String
  userId : Option String
deriving DecidableEq, Repr

/-- JavaScript a || b on optional strings: the left value wins unless it is
absent or the empty string (falsy). -/
def jsOrStr (a b : Option String) : Option String :=
  match a with
  | some s => if s == "" then b else some s
  | none => b

/-- handleConnection (socket.controller.js:35-98), parameterised by the token
verifier (jwt.verify, none models a thrown verification error) and the user
directory (userService.getUserById).  The handshake userId is destructured at
line 37 but never used afterwards.  On an existing live connection for the
same user the old socket is sent session-replaced and force-disconnected
(which runs its disconnect listener, deleting the registry entry) before the
new session is stored.  Any failure is an Except.error, caught by
setupSocketHandlers which closes the attempting socket. -/
def handleConnection (verify : String → Option String)
    (getUser : String → Option UserRec)
    (st : ConnState) (sid : String) (hs : Handshake) : Except String ConnState :=
  match hs.token with
  | none => .error "No authentication token provided"
  | some tok =>
  match verify tok with
  | none => .error "jwt verification failed"
  | some sub =>
  match getUser sub with
  | none => .error "User not found"
  | some user =>
    let st1 :=
      match mapGet st.connectedUsers user.uid with
      | some existingSocketId =>
          if ¬ existingSocketId == sid then
            match st.sockets.find? (fun s => s.sid == existingSocketId) with
            | some existingSocket =>
                if existingSocket.connected then
                  disconnectSock (emitToSock st existingSocketId .sessionReplaced)
                    existingSocketId
                else st
            | none => st
          else st
      | none => st
    let utype := jsOrStr user.utype user.accountType
    let st2 := updSock st1 sid (fun s => { s with userId := some user.uid, userType := utype })
    let st3 := { st2 with connectedUsers := mapSet st2.connectedUsers user.uid sid }
    let st4 := joinRoom st3 sid ("user-" ++ user.uid)
    let st5 :=
      if user.utype == some "vendor" ∨ user.accountType == some "vendor" then
        joinRoom st4 sid ("vendor-dashboard-" ++ user.uid)
      else st4
    .ok (emitToSock st5 sid (.connectedAck user.uid (utype.getD "undefined")))

/-- Authentication error produced by the socketAuth middleware: message plus
the machine-readable code attached to error.data. -/
structure AuthErr where
  message : String
  code : String
deriving DecidableEq, Repr

/-- Identity the socketAuth middleware attaches to the socket on success
(socket.user, middlewares/socket.js:54-61), restricted to the fields the core
uses. -/
structure SockUser where
  uid : String
  utype : Option String
deriving DecidableEq, Repr

/-- socketAuth middleware (middlewares/socket.js:10-79): token required, jwt
verified, user fetched, the optional handshake userId must match the resolved
identity (the JS truthiness test skips the check for an empty string), and a
truthy status other than active rejects the account. -/
def socketAuth (verify : String → Option String)
    (getUser : String → Option UserRec) (hs : Handshake) :
    Except AuthErr SockUser :=
  match hs.token with
  | none => .error { message := "Authentication token required", code := "NO_TOKEN" }
  | some tok =>
  match verify tok with
  | none => .error { message := "Invalid or expired token", code := "INVALID_TOKEN" }
  | some sub =>
  match getUser sub with
  | none => .error { message := "User not found", code := "USER_NOT_FOUND" }
  | some user =>
    let mismatch : Bool :=
      match hs.userId with
      | some uid => (!(uid == "")) && (!(uid == user.uid))
      | none => false
    let inactive : Bool :=
      match user.status with
      | some s => (!(s == "")) && (!(s == "active"))
      | none => false
    if mismatch then
      .error { message := "User ID mismatch", code := "USER_MISMATCH" }
    else if inactive then
      .error { message := "User account is not active", code := "ACCOUNT_INACTIVE" }
    else
      .ok { uid := user.uid, utype := jsOrStr user.utype user.accountType }

/-- Inbound client events handled by setupUserEventHandlers and the
role-specific setup methods (socket.controller.js:103-203). -/
inductive InEvent where
  | joinUserRoom (userId : String)
  | leaveUserRoom (userId : String)
  | joinOrderRoom (orderId : String)
  | leaveOrderRoom (orderId : String)
  | trackMyOrders
  | updateOrderStatus (orderId status : String) (estimatedTime message : Option String)
  | sendCustomerMessage (userId message : String) (orderId : Option String)
  | broadcastAnnouncementEv (message : String) (ty : Option String)
  | monitorTransactions
deriving DecidableEq, Repr

/-- Order details consumed by handleOrderStatusUpdate: item name, customer
user id and vendor id. -/
structure OrderDetails where
  item : String
  userId : String
  vendorId : String
deriving DecidableEq, Repr

/-- getOrderDetails (socket.controller.js:476-480): the body is a placeholder
that returns null for every order id. -/
def getOrderDetails (_orderId : String) : Option OrderDetails :=
  none

/-- getUserActiveOrders (socket.controller.js:462-466): placeholder returning
an empty list. -/
def getUserActiveOrders (_userId : String) : List String :=
  []

/-- verifyOrderAccess (socket.controller.js:468-474): placeholder that grants
access unconditionally, for every caller, order and role. -/
def verifyOrderAccess (_userId _orderId : String) (_userType : Option String) : Bool :=
  true

/-- JavaScript message || default where message is an optional string: the
default is used when the field is absent or the empty string. -/
def msgOrDefault (message : Option String) (dflt : String) : String :=
  match message with
  | some m => if m == "" then dflt else m
  | none => dflt

/-- handleJoinUserRoom (socket.controller.js:208-220): a caller may only join
its own user room; otherwise an error event is emitted and nothing else
happens (no join, no disconnect). -/
def handleJoinUserRoom (st : ConnState) (sock : SocketSt) (uid : String) : ConnState :=
  if ¬ (some uid == sock.userId) then
    emitToSock st sock.sid (.errorEv "Cannot join another users room")
  else
    emitToSock (joinRoom st sock.sid ("user-" ++ uid)) sock.sid
      (.roomJoined ("user-" ++ uid))

/-- handleLeaveUserRoom (socket.controller.js:225-229). -/
def handleLeaveUserRoom (st : ConnState) (sock : SocketSt) (uid : String) : ConnState :=
  emitToSock (leaveRoom st sock.sid ("user-" ++ uid)) sock.sid
    (.roomLeft ("user-" ++ uid))

/-- handleJoinOrderRoom (socket.controller.js:234-254): consults
verifyOrderAccess; on refusal emits an error, on success joins order-{orderId}
and emits room-joined. -/
def handleJoinOrderRoom (st : ConnState) (sock : SocketSt) (orderId : String) : ConnState :=
  if verifyOrderAccess (sock.userId.getD "undefined") orderId sock.userType then
    emitToSock (joinRoom st sock.sid ("order-" ++ orderId)) sock.sid
      (.roomJoined ("order-" ++ orderId))
  else
    emitToSock st sock.sid (.errorEv "No permission to access this order")

/-- handleLeaveOrderRoom (socket.controller.js:259-263). -/
def handleLeaveOrderRoom (st : ConnState) (sock : SocketSt) (orderId : String) : ConnState :=
  emitToSock (leaveRoom st sock.sid ("order-" ++ orderId)) sock.sid
    (.roomLeft ("order-" ++ orderId))

/-- handleOrderStatusUpdate (socket.controller.js:277-328), with the result of
getOrderDetails passed explicitly.  A missing order throws (Order not found).
Otherwise the customer user room receives a new-notification describing the
change, and additionally an order-ready event when the status string equals
the literal order-status-update (the comparison written at line 312). -/
def handleOrderStatusUpdateWith (details : Option OrderDetails) (orderId status : String)
    (message : Option String) : Except String (List (String × SEvent)) :=
  match details with
  | none => .error "Order not found"
  | some d =>
      let base : List (String × SEvent) :=
        [("user-" ++ d.userId,
          .newNotificationOrderUpdate
            (msgOrDefault message ("Your " ++ d.item ++ " is " ++ status ++ "!"))
            orderId status)]
      if status == "order-status-update" then
        .ok (base ++ [("user-" ++ d.userId,
          .orderReadyEv orderId d.item d.vendorId
            ("Your " ++ d.item ++ " is ready for pickup!"))])
      else
        .ok base

/-- handleVendorMessage (socket.controller.js:333-344). -/
def handleVendorMessage (st : ConnState) (sock : SocketSt) (uid message : String)
    (orderId : Option String) : ConnState :=
  emitToSock
    (emitToRoom st ("user-" ++ uid)
      (.vendorMessage (sock.userId.getD "undefined") message orderId))
    sock.sid (.messageSent uid message)

/-- handleAdminBroadcast (socket.controller.js:349-361): type defaults to
announcement. -/
def handleAdminBroadcast (st : ConnState) (sock : SocketSt) (message : String)
    (ty : Option String) : ConnState :=
  broadcastAll st (.adminAnnouncement message (ty.getD "announcement")
    (sock.userId.getD "undefined"))

/-- Event dispatch as wired by setupUserEventHandlers
(socket.controller.js:103-138): the four room events are registered for every
authenticated socket; track-my-orders only for customers; update-order-status
and send-customer-message only for vendors; broadcast-announcement and
monitor-transactions only for admins.  An event with no registered handler is
ignored.  The vendor update-order-status wrapper (lines 175-182) catches the
throw from handleOrderStatusUpdate and emits a failure error event; the
customer track-my-orders wrapper joins a room per active order and reports the
tracked ids. -/
def dispatch (st : ConnState) (sid : String) (ev : InEvent) : ConnState :=
  match st.sockets.find? (fun s => s.sid == sid) with
  | none => st
  | some sock =>
    match ev with
    | .joinUserRoom uid => handleJoinUserRoom st sock uid
    | .leaveUserRoom uid => handleLeaveUserRoom st sock uid
    | .joinOrderRoom oid => handleJoinOrderRoom st sock oid
    | .leaveOrderRoom oid => handleLeaveOrderRoom st sock oid
    | .trackMyOrders =>
        if sock.userType == some "customer" then
          let orders := getUserActiveOrders (sock.userId.getD "undefined")
          let st1 := orders.foldl (fun acc oid => joinRoom acc sid ("order-" ++ oid)) st
          emitToSock st1 sid (.trackingOrders orders)
        else st
    | .updateOrderStatus oid status _et msg =>
        if sock.userType == some "vendor" then
          match handleOrderStatusUpdateWith (getOrderDetails oid) oid status msg with
          | .ok ems => { st with outbox := st.outbox ++ ems }
          | .error _ => emitToSock st sid (.errorEv "Failed to update order status")
        else st
    | .sendCustomerMessage uid message oid =>
        if sock.userType == some "vendor" then
          handleVendorMessage st sock uid message oid
        else st
    | .broadcastAnnouncementEv message ty =>
        if sock.userType == some "admin" then
          handleAdminBroadcast st sock message ty
        else st
    | .monitorTransactions =>
        if sock.userType == some "admin" then
          joinRoom st sid "admin-monitoring"
        else st

/-- Target of one Notification Emitter emission: a room-scoped emit or a
broadcast to every connected session. -/
inductive STarget where
  | room (r : String) (ev : SEvent)
  | broadcast (ev : SEvent)
deriving DecidableEq, Repr

/-- State of the SocketService singleton: isInitialized (covering both the
flag and the socketController null check of ensureInitialized) plus the
controller's connectedUsers registry, which emitNewOrderToVendor inspects. -/
structure SvcState where
  isInitialized : Bool
  connectedUsers : List (String × String)
deriving DecidableEq, Repr

/-- State of the service as constructed (socket.service.js:8-11), before
initialize(io) runs. -/
def svcUninit : SvcState :=
  { isInitialized := false, connectedUsers := [] }

/-- ensureInitialized (socket.service.js:30-34): throws when the service was
never initialized. -/
def ensureInitialized (st : SvcState) : Except String Unit :=
  if st.isInitialized then .ok () else .error "SocketService not initialized"

/-- Catch-all wrapper shared by every public SocketService operation: the
try/catch around each body logs the error and returns, so a failing body
yields no emissions and the call returns normally. -/
def svcRun (body : Except String (List STarget)) : List STarget :=
  match body with
  | .ok emits => emits
  | .error _ => []

/-- Balance payload accepted by emitBalanceUpdate. -/
structure BalanceData where
  newBalance : Int
  oldBalance : Option Int
  amount : Option Int
  reason : Option String
deriving DecidableEq, Repr

/-- Body of emitBalanceUpdate (socket.service.js:40-57): after
ensureInitialized it calls this.socketController.emitBalanceUpdate, but
SocketController (socket.controller.js:10-545) defines no method of that
name, so the call raises a TypeError, modelled as an error. -/
def emitBalanceUpdateBody (st : SvcState) (_userId : String) (_bd : BalanceData) :
    Except String (List STarget) := do
  _ ← ensureInitialized st
  .error "TypeError: this.socketController.emitBalanceUpdate is not a function"

/-- emitBalanceUpdate as callable by business workflows: the catch turns any
failure into a normal return with nothing emitted. -/
def emitBalanceUpdate (st : SvcState) (userId : String) (bd : BalanceData) :
    List STarget :=
  svcRun (emitBalanceUpdateBody st userId bd)

/-- Payment payload accepted by emitPaymentCompleted. -/
structure PaymentData where
  amount : Int
  newBalance : Int
  paymentMethod : Option String
  transactionId : Option String
deriving DecidableEq, Repr

/-- Body of emitPaymentCompleted (socket.service.js:63-80): the call
this.socketController.emitPaymentCompleted also names a method that does not
exist on SocketController and raises a TypeError. -/
def emitPaymentCompletedBody (st : SvcState) (_userId : String) (_pd : PaymentData) :
    Except String (List STarget) := do
  _ ← ensureInitialized st
  .error "TypeError: this.socketController.emitPaymentCompleted is not a function"

/-- emitPaymentCompleted public operation. -/
def emitPaymentCompleted (st : SvcState) (userId : String) (pd : PaymentData) :
    List STarget :=
  svcRun (emitPaymentCompletedBody st userId pd)

/-- Status payload accepted by emitOrderStatusChange. -/
structure StatusData where
  status : String
  itemName : Option String
  userId : Option String
  vendorId : Option String
  message : Option String
deriving DecidableEq, Repr

/-- Body of emitOrderStatusChange (socket.service.js:86-110): delegates to the
controller's handleOrderStatusUpdate with a mock socket; with the source's
getOrderDetails that call throws Order not found before emitting anything. -/
def emitOrderStatusChangeBody (st : SvcState) (orderId : String) (sd : StatusData) :
    Except String (List STarget) := do
  _ ← ensureInitialized st
  let ems ← handleOrderStatusUpdateWith (getOrderDetails orderId) orderId sd.status sd.message
  .ok (ems.map (fun p => STarget.room p.1 p.2))

/-- emitOrderStatusChange public operation. -/
def emitOrderStatusChange (st : SvcState) (orderId : String) (sd : StatusData) :
    List STarget :=
  svcRun (emitOrderStatusChangeBody st orderId sd)

/-- Notification payload accepted by emitNotification. -/
structure NotificationData where
  message : String
  ty : Option String
  orderId : Option String
deriving DecidableEq, Repr

/-- Body of emitNotification (socket.service.js:116-133): delegates to the
controller's emitNotification (socket.controller.js:376-385), which emits a
new-notification to the user room; type defaults to info. -/
def emitNotificationBody (st : SvcState) (userId : String) (nd : NotificationData) :
    Except String (List STarget) := do
  _ ← ensureInitialized st
  .ok [STarget.room ("user-" ++ userId)
    (.newNotificationGeneric nd.message (nd.ty.getD "info") nd.orderId)]

/-- emitNotification public operation. -/
def emitNotification (st : SvcState) (userId : String) (nd : NotificationData) :
    List STarget :=
  svcRun (emitNotificationBody st userId nd)

/-- Order payload accepted by emitOrderReady. -/
structure OrderReadyData where
  itemName : String
  vendorId : String
  vendorName : String
  userId : String
deriving DecidableEq, Repr

/-- Body of emitOrderReady (socket.service.js:139-170): emits order-ready to
the order room and then calls the public emitNotification for the customer
(whose own catch cannot fire here since the service is initialized). -/
def emitOrderReadyBody (st : SvcState) (orderId : String) (od : OrderReadyData) :
    Except String (List STarget) := do
  _ ← ensureInitialized st
  .ok ([STarget.room ("order-" ++ orderId)
          (.orderReadyEv orderId od.itemName od.vendorId
            ("Your " ++ od.itemName ++ " is ready for pickup!"))]
    ++ emitNotification st od.userId
        { message := "Your " ++ od.itemName ++ " is ready! Please come to "
            ++ od.vendorName ++ " to pick it up."
          ty := some "order-ready", orderId := some orderId })

/-- emitOrderReady public operation. -/
def emitOrderReady (st : SvcState) (orderId : String) (od : OrderReadyData) :
    List STarget :=
  svcRun (emitOrderReadyBody st orderId od)

/-- Order payload accepted by emitNewOrderToVendor. -/
structure NewOrderData where
  orderId : String
  customerId : String
  customerName : String
deriving DecidableEq, Repr

/-- Body of emitNewOrderToVendor (socket.service.js:176-228): the vendor
connectivity lookup feeds only logging; the notification is emitted to the
vendor user room and the dashboard payload to the vendor dashboard room in
both cases. -/
def emitNewOrderToVendorBody (st : SvcState) (vendorId : String) (od : NewOrderData) :
    Except String (List STarget) := do
  _ ← ensureInitialized st
  .ok [STarget.room ("user-" ++ vendorId)
        (.newOrderNotification od.orderId od.customerId od.customerName),
      STarget.room ("vendor-dashboard-" ++ vendorId)
        (.dashboardUpdate od.orderId od.customerId od.customerName)]

/-- emitNewOrderToVendor public operation. -/
def emitNewOrderToVendor (st : SvcState) (vendorId : String) (od : NewOrderData) :
    List STarget :=
  svcRun (emitNewOrderToVendorBody st vendorId od)

/-- Transaction payload accepted by emitTransactionForAdmin. -/
structure TxData where
  txid : String
  userId : String
  vendorId : String
deriving DecidableEq, Repr

/-- Body of emitTransactionForAdmin (socket.service.js:234-253): emits
new-transaction to the admin-monitoring room. -/
def emitTransactionForAdminBody (st : SvcState) (tx : TxData) :
    Except String (List STarget) := do
  _ ← ensureInitialized st
  .ok [STarget.room "admin-monitoring" (.newTransaction tx.txid tx.userId tx.vendorId)]

/-- emitTransactionForAdmin public operation. -/
def emitTransactionForAdmin (st : SvcState) (tx : TxData) : List STarget :=
  svcRun (emitTransactionForAdminBody st tx)

/-- Announcement payload accepted by broadcastAnnouncement. -/
structure AnnouncementData where
  message : String
  ty : Option String
deriving DecidableEq, Repr

/-- Body of broadcastAnnouncement (socket.service.js:259-276): io.emit of
system-announcement to every connected session; type defaults to
announcement. -/
def broadcastAnnouncementBody (st : SvcState) (a : AnnouncementData) :
    Except String (List STarget) := do
  _ ← ensureInitialized st
  .ok [STarget.broadcast (.systemAnnouncement a.message (a.ty.getD "announcement"))]

/-- broadcastAnnouncement public operation. -/
def broadcastAnnouncement (st : SvcState) (a : AnnouncementData) : List STarget :=
  svcRun (broadcastAnnouncementBody st a)

/-- Lookup of a socket by id in the io server state
(io.sockets.sockets.get). -/
def getSock (st : ConnState) (t : String) : Option SocketSt :=
  st.sockets.find? (fun s => s.sid == t)

/-- Concrete customer fixture: user c2 connected on socket s2 and auto-joined
to its user room. -/
def custFixture : ConnState :=
  { connectedUsers := [("c2", "s2")],
    sockets := [{ sid := "s2", connected := true, userId := some "c2",
                  userType := some "customer", rooms := ["user-c2"], received := [] }],
    outbox := [], broadcastBox := [] }

/-- Concrete vendor fixture: vendor v1 connected on socket sv. -/
def vendorFixture : ConnState :=
  { connectedUsers := [("v1", "sv")],
    sockets := [{ sid := "sv", connected := true, userId := some "v1",
                  userType := some "vendor",
                  rooms := ["user-v1", "vendor-dashboard-v1"], received := [] }],
    outbox := [], broadcastBox := [] }

/-- Concrete token verifier: tok1 resolves to subject u1, everything else is
rejected. -/
def cexVerify : String → Option String :=
  fun t => if t == "tok1" then some "u1" else none

/-- Concrete user record for u1, an active customer. -/
def cexUserRec : UserRec :=
  { uid := "u1", utype := some "customer", accountType := none, status := some "active" }

/-- Concrete user directory holding exactly the active customer u1. -/
def cexGetUser : String → Option UserRec :=
  fun s => if s == "u1" then some cexUserRec else none

/-- Concrete connection fixture: user u1 is live on socket sOld, and a fresh
unauthenticated socket sNew has just been accepted by the transport. -/
def reconnFixture : ConnState :=
  { connectedUsers := [("u1", "sOld")],
    sockets := [{ sid := "sOld", connected := true, userId := some "u1",
                  userType := some "customer", rooms := ["user-u1"], received := [] },
                { sid := "sNew", connected := true, userId := none,
                  userType := none, rooms := [], received := [] }],
    outbox := [], broadcastBox := [] }

/-- Concrete fixture for a fresh connection attempt on socket s9 with no prior
session. -/
def freshFixture : ConnState :=
  { connectedUsers := [],
    sockets := [{ sid := "s9", connected := true, userId := none,
                  userType := none, rooms := [], received := [] }],
    outbox := [], broadcastBox := [] }

/-- Service fixture in the initialized state with no one connected. -/
def svcInit : SvcState :=
  { isInitialized := true, connectedUsers := [] }

/-- Service fixture in the initialized state with vendor v1 online. -/
def svcInitVendorOnline : SvcState :=
  { isInitialized := true, connectedUsers := [("v1", "sv")] }

theorem find?_map_pred {α : Type} (l : List α) (g : α → α) (p : α → Bool)
    (hg : ∀ s, p (g s) = p s) : (l.map g).find? p = (l.find? p).map g := by
  induction l with
  | nil => rfl
  | cons a l ih =>
      by_cases h : p a = true
      · have hga : p (g a) = true := by rw [hg]; exact h
        simp [List.find?_cons_of_pos _ h, List.find?_cons_of_pos _ hga]
      · have hga : ¬ p (g a) = true := by rw [hg]; exact h
        simp only [List.map_cons, List.find?_cons_of_neg _ h, List.find?_cons_of_neg _ hga, ih]

theorem getSock_updSock (st : ConnState) (t t2 : String) (f : SocketSt → SocketSt)
    (hf : ∀ s, (f s).sid = s.sid) :
    getSock (updSock st t f) t2 =
      (getSock st t2).map (fun s => if s.sid == t then f s else s) := by
  unfold getSock updSock
  apply find?_map_pred
  intro s
  by_cases h : s.sid == t
  · simp [h, hf]
  · simp [h]

theorem getSock_updSock_other (st : ConnState) (t t2 : String) (f : SocketSt → SocketSt)
    (hf : ∀ s, (f s).sid = s.sid) (a : SocketSt) (ha : getSock st t2 = some a)
    (hne : t2 ≠ t) : getSock (updSock st t f) t2 = some a := by
  have ha2 : st.sockets.find? (fun s => s.sid == t2) = some a := ha
  have hsid : (a.sid == t2) = true := by simpa using List.find?_some ha2
  have hsid2 : a.sid = t2 := by simpa using hsid
  rw [getSock_updSock st t t2 f hf, ha]
  have hat : (a.sid == t) = false := by
    apply beq_eq_false_iff_ne.mpr
    rw [hsid2]
    exact hne
  simp only [Option.map_some']
  rw [if_neg]
  simp [hat]

theorem getSock_updSock_self (st : ConnState) (t : String) (f : SocketSt → SocketSt)
    (hf : ∀ s, (f s).sid = s.sid) (a : SocketSt) (ha : getSock st t = some a) :
    getSock (updSock st t f) t = some (f a) := by
  have ha2 : st.sockets.find? (fun s => s.sid == t) = some a := ha
  have hsid : a.sid = t := by simpa using List.find?_some ha2
  rw [getSock_updSock st t t f hf, ha]
  simp [hsid]

theorem connectedUsers_updSock (st : ConnState) (t : String) (f : SocketSt → SocketSt) :
    (updSock st t f).connectedUsers = st.connectedUsers := rfl

theorem filter_mapDelete (m : List (String × String)) (k : String) :
    (mapDelete m k).filter (fun p => p.1 == k) = [] := by
  apply List.filter_eq_nil_iff.mpr
  intro a ha
  have := List.of_mem_filter ha
  simpa using this

theorem mapGet_mapDelete (m : List (String × String)) (k : String) :
    mapGet (mapDelete m k) k = none := by
  unfold mapGet
  rw [List.find?_eq_none.mpr]
  · rfl
  · intro a ha
    have := List.of_mem_filter ha
    simpa using this

theorem mapSet_of_get_none (m : List (String × String)) (k v : String)
    (h : mapGet m k = none) : mapSet m k v = m ++ [(k, v)] := by
  unfold mapGet at h
  unfold mapSet
  have : m.find? (fun p => p.1 == k) = none := by
    cases hf : m.find? (fun p => p.1 == k) with
    | none => rfl
    | some a => rw [hf] at h; simp at h
  simp [this]

theorem getSock_emitToSock_self (st : ConnState) (t : String) (ev : SEvent)
    (a : SocketSt) (ha : getSock st t = some a) :
    getSock (emitToSock st t ev) t = some { a with received := a.received ++ [ev] } :=
  getSock_updSock_self st t (fun s => { s with received := s.received ++ [ev] })
    (fun _ => rfl) a ha

theorem getSock_emitToSock_other (st : ConnState) (t t2 : String) (ev : SEvent)
    (a : SocketSt) (ha : getSock st t2 = some a) (hne : t2 ≠ t) :
    getSock (emitToSock st t ev) t2 = some a :=
  getSock_updSock_other st t t2 (fun s => { s with received := s.received ++ [ev] })
    (fun _ => rfl) a ha hne

theorem getSock_joinRoom_self (st : ConnState) (t room : String)
    (a : SocketSt) (ha : getSock st t = some a) :
    getSock (joinRoom st t room) t =
      some { a with rooms := if a.rooms.contains room then a.rooms else a.rooms ++ [room] } :=
  getSock_updSock_self st t
    (fun s => { s with rooms := if s.rooms.contains room then s.rooms else s.rooms ++ [room] })
    (fun _ => rfl) a ha

theorem getSock_joinRoom_other (st : ConnState) (t t2 room : String)
    (a : SocketSt) (ha : getSock st t2 = some a) (hne : t2 ≠ t) :
    getSock (joinRoom st t room) t2 = some a :=
  getSock_updSock_other st t t2
    (fun s => { s with rooms := if s.rooms.contains room then s.rooms else s.rooms ++ [room] })
    (fun _ => rfl) a ha hne

/-- Claim C2: join-user-room from a session authenticated as y with payload
userId x joins nothing and emits an error when x differs from y (and does not
disconnect), and joins user-x with a room-joined acknowledgment when x equals
y. -/
theorem joinUserRoom_ownership (st : ConnState) (sid x y : String) (sock : SocketSt)
    (hfind : getSock st sid = some sock) (hy : sock.userId = some y) :
    (x ≠ y →
      getSock (dispatch st sid (.joinUserRoom x)) sid =
        some { sock with
          received := sock.received ++ [.errorEv "Cannot join another users room"] })
    ∧ (x = y →
      dispatch st sid (.joinUserRoom x) =
        emitToSock (joinRoom st sid ("user-" ++ x)) sid (.roomJoined ("user-" ++ x))) := by
  have hfind2 : st.sockets.find? (fun s => s.sid == sid) = some sock := hfind
  have hss : sock.sid = sid := by simpa using List.find?_some hfind2
  constructor
  · intro hxy
    have hne : ¬ ((some x == sock.userId) = true) := by
      rw [hy]
      simp [hxy]
    have hd : dispatch st sid (.joinUserRoom x) =
        emitToSock st sid (.errorEv "Cannot join another users room") := by
      unfold dispatch
      rw [hfind2]
      dsimp only
      unfold handleJoinUserRoom
      rw [if_pos hne, hss]
    rw [hd]
    exact getSock_emitToSock_self st sid _ sock hfind
  · intro hxy
    have heq : ¬ ¬ ((some x == sock.userId) = true) := by
      rw [hy, hxy]
      simp
    unfold dispatch
    rw [hfind2]
    dsimp only
    unfold handleJoinUserRoom
    rw [if_neg heq, hss]

/-- Witness for joinUserRoom_ownership at a concrete state: customer c2 is
refused user-c9 and admitted to user-c2. -/
theorem joinUserRoom_ownership_witness :
    (getSock (dispatch custFixture "s2" (.joinUserRoom "c9")) "s2" =
      some { sid := "s2", connected := true, userId := some "c2",
             userType := some "customer", rooms := ["user-c2"],
             received := [.errorEv "Cannot join another users room"] })
    ∧ (dispatch custFixture "s2" (.joinUserRoom "c2") =
        emitToSock (joinRoom custFixture "s2" "user-c2") "s2" (.roomJoined "user-c2")) := by
  have h := joinUserRoom_ownership custFixture "s2" "c9" "c2"
    { sid := "s2", connected := true, userId := some "c2",
      userType := some "customer", rooms := ["user-c2"], received := [] }
    (by rfl) (by rfl)
  have h2 := joinUserRoom_ownership custFixture "s2" "c2" "c2"
    { sid := "s2", connected := true, userId := some "c2",
      userType := some "customer", rooms := ["user-c2"], received := [] }
    (by rfl) (by rfl)
  exact ⟨h.1 (by decide), h2.2 rfl⟩

/-- Claim C9 (code bug): verifyOrderAccess is a placeholder returning true for
every caller, so join-order-room admits any session - here customer c2, who is
not a participant of order o1 - into room order-o1 with a room-joined
acknowledgment instead of a permission-denied error. -/
theorem joinOrderRoom_access_always_granted :
    dispatch custFixture "s2" (.joinOrderRoom "o1") =
      { connectedUsers := [("c2", "s2")],
        sockets := [{ sid := "s2", connected := true, userId := some "c2",
                      userType := some "customer", rooms := ["user-c2", "order-o1"],
                      received := [.roomJoined "order-o1"] }],
        outbox := [], broadcastBox := [] } := by
  decide

/-- Claim C3 (code bug): with the source getOrderDetails (which returns null),
a vendor update-order-status with status completed emits nothing to any room
and only a failure error to the vendor; and even given an existing order
record, the completed status produces only the new-notification - the
order-ready emission is gated on the literal order-status-update. -/
theorem orderReady_gate_is_wrong :
    (dispatch vendorFixture "sv" (.updateOrderStatus "o1" "completed" none none)).outbox = []
    ∧ getSock (dispatch vendorFixture "sv" (.updateOrderStatus "o1" "completed" none none)) "sv" =
        some { sid := "sv", connected := true, userId := some "v1", userType := some "vendor",
               rooms := ["user-v1", "vendor-dashboard-v1"],
               received := [.errorEv "Failed to update order status"] }
    ∧ handleOrderStatusUpdateWith (some { item := "Dumplings", userId := "c1", vendorId := "v1" })
        "o1" "completed" none =
        .ok [("user-c1", .newNotificationOrderUpdate "Your Dumplings is completed!" "o1" "completed")]
    ∧ handleOrderStatusUpdateWith (some { item := "Dumplings", userId := "c1", vendorId := "v1" })
        "o1" "order-status-update" none =
        .ok [("user-c1", .newNotificationOrderUpdate "Your Dumplings is order-status-update!"
                "o1" "order-status-update"),
             ("user-c1", .orderReadyEv "o1" "Dumplings" "v1"
                "Your Dumplings is ready for pickup!")] := by
  exact ⟨rfl, rfl, rfl, rfl⟩

/-- Claim C7 (code bug): the service emitBalanceUpdate never emits anything,
for any state (initialized or not) and any input, because the delegate method
does not exist on SocketController; the TypeError is caught and the call
returns with no emissions. -/
theorem emitBalanceUpdate_never_emits (st : SvcState) (uid : String) (bd : BalanceData) :
    emitBalanceUpdate st uid bd = [] := by
  unfold emitBalanceUpdate svcRun emitBalanceUpdateBody ensureInitialized
  cases h : st.isInitialized <;> rfl

/-- Claim C6: every public Notification Emitter operation returns normally
with no emissions when the subsystem is uninitialized, and
emitOrderStatusChange does so in every state even though its inner order
lookup throws - the surrounding catch converts every failure into a plain
return. -/
theorem emitters_return_normally :
    (∀ uid bd, emitBalanceUpdate svcUninit uid bd = [])
    ∧ (∀ uid pd, emitPaymentCompleted svcUninit uid pd = [])
    ∧ (∀ st oid sd, emitOrderStatusChange st oid sd = [])
    ∧ (∀ uid nd, emitNotification svcUninit uid nd = [])
    ∧ (∀ oid od, emitOrderReady svcUninit oid od = [])
    ∧ (∀ v od, emitNewOrderToVendor svcUninit v od = [])
    ∧ (∀ tx, emitTransactionForAdmin svcUninit tx = [])
    ∧ (∀ a, broadcastAnnouncement svcUninit a = []) := by
  refine ⟨fun uid bd => rfl, fun uid pd => rfl, fun st oid sd => ?_, fun uid nd => rfl,
    fun oid od => rfl, fun v od => rfl, fun tx => rfl, fun a => rfl⟩
  unfold emitOrderStatusChange svcRun emitOrderStatusChangeBody ensureInitialized
    handleOrderStatusUpdateWith getOrderDetails
  cases h : st.isInitialized <;> rfl

/-- Claim C5: emitNewOrderToVendor is total - for an uninitialized service it
returns normally with nothing emitted, and on an initialized service it
produces exactly the two room emissions (new-order-notification to the vendor
user room and dashboard-update to the vendor dashboard room); in particular
this holds when the vendor is online in the registry. -/
theorem emitNewOrderToVendor_two_emissions (st : SvcState) (v sid : String)
    (od : NewOrderData) :
    (emitNewOrderToVendor st v od =
      if st.isInitialized then
        [STarget.room ("user-" ++ v)
          (.newOrderNotification od.orderId od.customerId od.customerName),
         STarget.room ("vendor-dashboard-" ++ v)
          (.dashboardUpdate od.orderId od.customerId od.customerName)]
      else [])
    ∧ (st.isInitialized = true → mapGet st.connectedUsers v = some sid →
      emitNewOrderToVendor st v od =
        [STarget.room ("user-" ++ v)
          (.newOrderNotification od.orderId od.customerId od.customerName),
         STarget.room ("vendor-dashboard-" ++ v)
          (.dashboardUpdate od.orderId od.customerId od.customerName)]) := by
  have htot : emitNewOrderToVendor st v od =
      if st.isInitialized then
        [STarget.room ("user-" ++ v)
          (.newOrderNotification od.orderId od.customerId od.customerName),
         STarget.room ("vendor-dashboard-" ++ v)
          (.dashboardUpdate od.orderId od.customerId od.customerName)]
      else [] := by
    unfold emitNewOrderToVendor svcRun emitNewOrderToVendorBody ensureInitialized
    cases h : st.isInitialized <;> rfl
  refine ⟨htot, fun h1 _ => ?_⟩
  rw [htot, h1]
  simp

/-- Witness for emitNewOrderToVendor_two_emissions: vendor v1 online on an
initialized service receives both emissions for a concrete order. -/
theorem emitNewOrderToVendor_two_emissions_witness :
    emitNewOrderToVendor svcInitVendorOnline "v1"
      { orderId := "o1", customerId := "c1", customerName := "Alice" } =
      [STarget.room "user-v1" (.newOrderNotification "o1" "c1" "Alice"),
       STarget.room "vendor-dashboard-v1" (.dashboardUpdate "o1" "c1" "Alice")] := by
  have h := (emitNewOrderToVendor_two_emissions svcInitVendorOnline "v1" "sv"
    { orderId := "o1", customerId := "c1", customerName := "Alice" }).2 rfl rfl
  simpa using h

theorem rateLimitCheck_preserves_bound (limit : Nat) (st : RLState)
    (uid : Option String) (now : Nat) (h : ∀ p ∈ st.counts, p.2 ≤ limit) :
    ∀ p ∈ (rateLimitCheck limit st uid now).1.counts, p.2 ≤ limit := by
  intro p hp
  unfold rateLimitCheck at hp
  cases uid with
  | none => exact h p hp
  | some u =>
      dsimp only at hp
      by_cases hc : (rlGet st.counts (u, now / 60000)).getD 0 ≥ limit
      · rw [if_pos hc] at hp
        exact h p hp
      · rw [if_neg hc] at hp
        dsimp only at hp
        unfold rlSet at hp
        have hlt : (rlGet st.counts (u, now / 60000)).getD 0 + 1 ≤ limit := by omega
        by_cases hs : (st.counts.find? (fun p => p.1 == (u, now / 60000))).isSome
        · rw [if_pos hs] at hp
          obtain ⟨q, hq, hpq⟩ := List.mem_map.mp hp
          by_cases hqk : (q.1 == (u, now / 60000)) = true
          · rw [if_pos hqk] at hpq
            subst hpq
            exact hlt
          · rw [if_neg hqk] at hpq
            subst hpq
            exact h q hq
        · rw [if_neg hs] at hp
          rcases List.mem_append.mp hp with hm | hm
          · exact h p hm
          · have : p = ((u, now / 60000), (rlGet st.counts (u, now / 60000)).getD 0 + 1) := by
              simpa using hm
            rw [this]
            exact hlt

/-- Claim C10: for every configured limit and every sequence of middleware
invocations starting from the empty counter map, every stored per-(user,
bucket) count stays at or below the limit - a rejected event does not
increment the counter. -/
theorem rateLimiter_counts_bounded (limit : Nat) (calls : List (Option String × Nat)) :
    (runChecks limit calls).counts.all (fun p => decide (p.2 ≤ limit)) = true := by
  rw [List.all_eq_true]
  have main : ∀ (cs : List (Option String × Nat)) (st : RLState),
      (∀ p ∈ st.counts, p.2 ≤ limit) →
      ∀ p ∈ (cs.foldl (fun s c => (rateLimitCheck limit s c.1 c.2).1) st).counts,
        p.2 ≤ limit := by
    intro cs
    induction cs with
    | nil => intro st h; exact h
    | cons c cs ih =>
        intro st h
        exact ih _ (rateLimitCheck_preserves_bound limit st c.1 c.2 h)
  intro p hp
  simpa using main calls ⟨[]⟩ (by simp) p hp

theorem runChecks_replicate (N : Nat) (uid : String) (now : Nat) :
    ∀ k, k ≤ N → runChecks N (List.replicate k (some uid, now)) =
      ⟨if k = 0 then [] else [((uid, now / 60000), k)]⟩ := by
  intro k
  induction k with
  | zero => intro _; rfl
  | succ k ih =>
      intro hk
      have hk2 : k ≤ N := Nat.le_of_succ_le hk
      unfold runChecks at *
      rw [List.replicate_succ', List.foldl_append, ih hk2]
      by_cases h0 : k = 0
      · subst h0
        have hN : ¬ (0 ≥ N) := by omega
        simp [rateLimitCheck, rlGet, rlSet, hN]
      · have hkN : ¬ (k ≥ N) := by omega
        simp only [if_neg h0]
        have hfind : List.find? (fun p => p.1 == (uid, now / 60000))
            [((uid, now / 60000), k)] = some ((uid, now / 60000), k) := by
          simp
        simp [rateLimitCheck, rlGet, rlSet, hfind, hkN]

/-- Claim C4 (amended): the socketRateLimit middleware function itself has the
claimed bucket semantics - with budget N, the first N checks for one user in
one minute bucket pass, the (N+1)th check in the same bucket is rejected with
a RATE_LIMIT error carrying the configured limit and the next minute boundary,
and a check in a different minute bucket passes again. -/
theorem socketRateLimit_bucket_semantics (uid : String) (now N : Nat) (hN : 0 < N) :
    (∀ k, k < N →
      (rateLimitCheck N (runChecks N (List.replicate k (some uid, now))) (some uid) now).2
        = none)
    ∧ (rateLimitCheck N (runChecks N (List.replicate N (some uid, now))) (some uid) now).2 =
        some { code := "RATE_LIMIT", limit := N,
               resetTime := ((now + 60000 - 1) / 60000) * 60000 }
    ∧ (∀ now2, now2 / 60000 ≠ now / 60000 →
        (rateLimitCheck N (runChecks N (List.replicate N (some uid, now))) (some uid) now2).2
          = none) := by
  refine ⟨?_, ?_, ?_⟩
  · intro k hk
    rw [runChecks_replicate N uid now k (Nat.le_of_lt hk)]
    by_cases h0 : k = 0
    · subst h0
      have hge : ¬ (0 ≥ N) := by omega
      simp [rateLimitCheck, rlGet, hge]
    · have hge : ¬ (k ≥ N) := by omega
      have hfind : List.find? (fun p => p.1 == (uid, now / 60000))
          [((uid, now / 60000), k)] = some ((uid, now / 60000), k) := by
        simp
      simp [rateLimitCheck, rlGet, h0, hfind, hge]
  · rw [runChecks_replicate N uid now N le_rfl]
    have h0 : ¬ (N = 0) := by omega
    have hfind : List.find? (fun p => p.1 == (uid, now / 60000))
        [((uid, now / 60000), N)] = some ((uid, now / 60000), N) := by
      simp
    simp [rateLimitCheck, rlGet, h0, hfind]
  · intro now2 hb
    rw [runChecks_replicate N uid now N le_rfl]
    have h0 : ¬ (N = 0) := by omega
    have hkey : (((uid, now / 60000) : String × Nat) == (uid, now2 / 60000)) = false := by
      apply beq_eq_false_iff_ne.mpr
      intro hcontra
      exact hb (by injection hcontra with h1 h2; exact h2.symm)
    have hfind : List.find? (fun p => p.1 == (uid, now2 / 60000))
        [((uid, now / 60000), N)] = none := by
      simp [List.find?, hkey]
    have hge : ¬ (0 ≥ N) := by omega
    simp [rateLimitCheck, rlGet, h0, hfind, hge]

/-- Witness for socketRateLimit_bucket_semantics at budget 1 for user u1 at
time 0: the second event in bucket 0 is rejected with the limit and reset
boundary, and an event in the next bucket passes. -/
theorem socketRateLimit_bucket_semantics_witness :
    (rateLimitCheck 1 (runChecks 1 (List.replicate 1 (some "u1", 0))) (some "u1") 0).2 =
      some { code := "RATE_LIMIT", limit := 1, resetTime := 0 }
    ∧ (rateLimitCheck 1 (runChecks 1 (List.replicate 1 (some "u1", 0))) (some "u1") 60000).2
        = none := by
  have h := socketRateLimit_bucket_semantics "u1" 0 1 (by decide)
  exact ⟨h.2.1, h.2.2 60000 (by decide)⟩

set_option maxRecDepth 4000 in
/-- Counterexample to claim C4 as stated: handler invocations are not checked
by the rate limiter.  With the default budget of 60 events per minute, a 61st
inbound event in the same instant is still dispatched to its handler, which
runs and acknowledges normally - no RateLimitError is produced, because the
socketRateLimit middleware is never registered and setupUserEventHandlers
wires handlers directly. -/
theorem dispatch_not_rate_limited_cex :
    getSock (Nat.iterate (fun s => dispatch s "s2" (InEvent.joinUserRoom "c2")) 61 custFixture)
        "s2" =
      some { sid := "s2", connected := true, userId := some "c2",
             userType := some "customer", rooms := ["user-c2"],
             received := List.replicate 61 (SEvent.roomJoined "user-c2") } := by
  decide

/-- Claim C8 (amended): the socketAuth middleware function, when invoked on a
handshake whose claimedUserId is present, non-empty and differs from the
identity resolved from the token subject, rejects the attempt with the
USER_MISMATCH auth error and attaches no user. -/
theorem socketAuth_rejects_identity_mismatch (verify : String → Option String)
    (getUser : String → Option UserRec) (hs : Handshake) (tok sub uid : String)
    (user : UserRec) (htok : hs.token = some tok) (hver : verify tok = some sub)
    (huser : getUser sub = some user) (huid : hs.userId = some uid)
    (hne : uid ≠ "") (hne2 : uid ≠ user.uid) :
    socketAuth verify getUser hs =
      .error { message := "User ID mismatch", code := "USER_MISMATCH" } := by
  obtain ⟨t, u⟩ := hs
  simp only at htok huid
  subst htok huid
  have hb1 : (uid == "") = false := beq_eq_false_iff_ne.mpr hne
  have hb2 : (uid == user.uid) = false := beq_eq_false_iff_ne.mpr hne2
  simp [socketAuth, hver, huser, hb1, hb2]

/-- Witness for socketAuth_rejects_identity_mismatch: the middleware rejects a
handshake claiming u2 with a token resolving to u1. -/
theorem socketAuth_rejects_identity_mismatch_witness :
    socketAuth cexVerify cexGetUser { token := some "tok1", userId := some "u2" } =
      .error { message := "User ID mismatch", code := "USER_MISMATCH" } :=
  socketAuth_rejects_identity_mismatch cexVerify cexGetUser
    { token := some "tok1", userId := some "u2" } "tok1" "u1" "u2" cexUserRec
    rfl rfl rfl rfl (by decide) (by decide)

/-- Counterexample to claim C8 as stated: the actual connection path ignores
the claimed userId - socketAuth is never installed on the io server and
handleConnection never compares it - so a connection attempt claiming u2 with
a token resolving to u1 succeeds and registers a session for u1. -/
theorem identity_mismatch_not_enforced_cex :
    (handleConnection cexVerify cexGetUser freshFixture "s9"
        { token := some "tok1", userId := some "u2" }).isOk = true
    ∧ (handleConnection cexVerify cexGetUser freshFixture "s9"
        { token := some "tok1", userId := some "u2" }).toOption.map
          (fun st => st.connectedUsers) = some [("u1", "s9")] := by
  decide

theorem getSock_set_connectedUsers (st : ConnState) (m : List (String × String))
    (t : String) : getSock { st with connectedUsers := m } t = getSock st t := rfl

theorem evict_state (st : ConnState) (t U : String) (oldSock : SocketSt)
    (hfind : getSock st t = some oldSock) (holduid : oldSock.userId = some U) :
    disconnectSock (emitToSock st t .sessionReplaced) t =
      { updSock (updSock st t
          (fun s => { s with received := s.received ++ [SEvent.sessionReplaced] })) t
          (fun s => { s with connected := false })
        with connectedUsers := mapDelete st.connectedUsers U } := by
  have hE : getSock (emitToSock st t .sessionReplaced) t =
      some { oldSock with received := oldSock.received ++ [SEvent.sessionReplaced] } :=
    getSock_emitToSock_self st t _ oldSock hfind
  have hE2 : (emitToSock st t .sessionReplaced).sockets.find? (fun s => s.sid == t) =
      some { oldSock with received := oldSock.received ++ [SEvent.sessionReplaced] } := hE
  unfold disconnectSock
  rw [hE2]
  dsimp only
  unfold handleDisconnection
  dsimp only
  rw [holduid]
  rfl

/-- Claim C1: when a second connection newSid authenticates as user U while U
already has a registered live connection oldSid, handleConnection sends the
old connection a session-replaced event and closes it, and afterwards the
connected-users registry contains exactly one entry for U, mapping U to the
new connection. -/
theorem single_session_on_reconnect (verify : String → Option String)
    (getUser : String → Option UserRec) (st : ConnState)
    (tok sub U oldSid newSid : String) (claimed : Option String)
    (user : UserRec) (oldSock : SocketSt)
    (hver : verify tok = some sub) (huser : getUser sub = some user) (hU : user.uid = U)
    (hget : mapGet st.connectedUsers U = some oldSid)
    (hfind : getSock st oldSid = some oldSock)
    (hconn : oldSock.connected = true) (holduid : oldSock.userId = some U)
    (hne : oldSid ≠ newSid) :
    ∃ st2, handleConnection verify getUser st newSid { token := some tok, userId := claimed }
        = .ok st2
      ∧ st2.connectedUsers.filter (fun p => p.1 == U) = [(U, newSid)]
      ∧ ∃ old2, getSock st2 oldSid = some old2 ∧ old2.connected = false
          ∧ SEvent.sessionReplaced ∈ old2.received := by
  unfold handleConnection
  dsimp only
  rw [hver]
  dsimp only
  rw [huser]
  dsimp only
  rw [hU, hget]
  dsimp only
  have hbe : (oldSid == newSid) = false := beq_eq_false_iff_ne.mpr hne
  rw [if_pos (show ¬ ((oldSid == newSid) = true) by simp [hbe])]
  rw [show st.sockets.find? (fun s => s.sid == oldSid) = some oldSock from hfind]
  dsimp only
  rw [if_pos (show oldSock.connected = true from hconn)]
  rw [evict_state st oldSid U oldSock hfind holduid]
  set A : ConnState :=
    { updSock (updSock st oldSid
        (fun s => { s with received := s.received ++ [SEvent.sessionReplaced] })) oldSid
        (fun s => { s with connected := false })
      with connectedUsers := mapDelete st.connectedUsers U } with hA
  have hgetA : getSock A oldSid =
      some ({ oldSock with connected := false, received := oldSock.received ++ [SEvent.sessionReplaced] }) := by
    have h1 := getSock_updSock_self st oldSid
      (fun s => { s with received := s.received ++ [SEvent.sessionReplaced] })
      (fun _ => rfl) oldSock hfind
    exact getSock_updSock_self _ oldSid (fun s => { s with connected := false })
      (fun _ => rfl) _ h1
  by_cases hv : (user.utype == some "vendor") = true ∨ (user.accountType == some "vendor") = true
  · rw [if_pos hv]
    refine ⟨_, rfl, ?_, ?_⟩
    · show (mapSet (mapDelete st.connectedUsers U) U newSid).filter (fun p => p.1 == U)
        = [(U, newSid)]
      rw [mapSet_of_get_none _ _ _ (mapGet_mapDelete _ _), List.filter_append,
        filter_mapDelete]
      simp
    · refine ⟨{ oldSock with connected := false, received := oldSock.received ++ [SEvent.sessionReplaced] },
        ?_, rfl, by simp⟩
      refine getSock_emitToSock_other _ newSid oldSid _ _ ?_ hne
      refine getSock_joinRoom_other _ newSid oldSid _ _ ?_ hne
      refine getSock_joinRoom_other _ newSid oldSid _ _ ?_ hne
      show getSock (updSock A newSid
          (fun s => { s with userId := some U, userType := jsOrStr user.utype user.accountType }))
          oldSid = some ({ oldSock with connected := false, received := oldSock.received ++ [SEvent.sessionReplaced] })
      exact getSock_updSock_other A newSid oldSid
        (fun s => { s with userId := some U, userType := jsOrStr user.utype user.accountType })
        (fun _ => rfl) _ hgetA hne
  · rw [if_neg hv]
    refine ⟨_, rfl, ?_, ?_⟩
    · show (mapSet (mapDelete st.connectedUsers U) U newSid).filter (fun p => p.1 == U)
        = [(U, newSid)]
      rw [mapSet_of_get_none _ _ _ (mapGet_mapDelete _ _), List.filter_append,
        filter_mapDelete]
      simp
    · refine ⟨{ oldSock with connected := false, received := oldSock.received ++ [SEvent.sessionReplaced] },
        ?_, rfl, by simp⟩
      refine getSock_emitToSock_other _ newSid oldSid _ _ ?_ hne
      refine getSock_joinRoom_other _ newSid oldSid _ _ ?_ hne
      show getSock (updSock A newSid
          (fun s => { s with userId := some U, userType := jsOrStr user.utype user.accountType }))
          oldSid = some ({ oldSock with connected := false, received := oldSock.received ++ [SEvent.sessionReplaced] })
      exact getSock_updSock_other A newSid oldSid
        (fun s => { s with userId := some U, userType := jsOrStr user.utype user.accountType })
        (fun _ => rfl) _ hgetA hne

/-- Witness for single_session_on_reconnect: user u1, live on sOld, reconnects
on sNew; the registry ends with the single entry (u1, sNew) and sOld is closed
after receiving session-replaced. -/
theorem single_session_on_reconnect_witness :
    ∃ st2, handleConnection cexVerify cexGetUser reconnFixture "sNew"
        { token := some "tok1", userId := none } = .ok st2
      ∧ st2.connectedUsers.filter (fun p => p.1 == "u1") = [("u1", "sNew")]
      ∧ ∃ old2, getSock st2 "sOld" = some old2 ∧ old2.connected = false
          ∧ SEvent.sessionReplaced ∈ old2.received :=
  single_session_on_reconnect cexVerify cexGetUser reconnFixture "tok1" "u1" "u1"
    "sOld" "sNew" none cexUserRec
    { sid := "sOld", connected := true, userId := some "u1",
      userType := some "customer", rooms := ["user-u1"], received := [] }
    rfl rfl rfl (by decide) (by decide) rfl rfl (by decide)
